import Mathlib

/-!
# Verification of the GPU pre-aggregation engine (`src/gpupreagg.c`)

A shallow embedding, in Lean 4, of the parts of `gpupreagg.c` that the
specification's claims are about:

* the aggregate decomposition catalog (`aggfunc_catalog`);
* the device target-list builder (`build_custom_scan_tlist`) and the
  partial-state expression constructors (`make_expr_conditional`,
  `make_altfunc_nrows_expr`);
* the projection code generator's null-sentinel selection
  (`gpupreagg_codegen_projection`);
* the task constructor (`gpupreagg_create_task`), the run-time
  reduction-strategy selector (`gpupreagg_setup_strategy`) and the task
  completion handler (`gpupreagg_complete_task`);
* the shared final-result buffer lifecycle (reference counting via
  `ntasks_running` / `is_dereferenced`, terminator activation, device memory
  release), modelled as a labelled transition system.

Machine integers (`cl_uint`, `cl_int`, `Oid`) are modelled as `Nat`; the
`cl_double` arithmetic of the strategy selector is modelled exactly over `ℚ`
(the computation involves only small sums, products and one division by 30,
all exactly representable; the claims concern the comparison structure, not
rounding).  Fallible C paths (NULL-pointer dereference) are modelled with
`Option`.
-/

namespace GpuPreAgg

/-! ## Symbolic constants

`ALTFUNC_*` action codes are taken verbatim from `gpupreagg.c` lines 246-258.
PostgreSQL type OIDs are the standard `pg_type` values referenced by the
catalog table.  `StromError_*` codes and `DEVKERNEL_NEEDS_*` flags are defined
in headers outside `src/`; only their distinctness matters here.
-/

def ALTFUNC_GROUPING_KEY : Nat := 50
def ALTFUNC_CONST_VALUE : Nat := 51
def ALTFUNC_CONST_NULL : Nat := 52
def ALTFUNC_EXPR_NROWS : Nat := 101
def ALTFUNC_EXPR_PMIN : Nat := 102
def ALTFUNC_EXPR_PMAX : Nat := 103
def ALTFUNC_EXPR_PSUM : Nat := 104
def ALTFUNC_EXPR_PSUM_X2 : Nat := 105
def ALTFUNC_EXPR_PCOV_X : Nat := 106
def ALTFUNC_EXPR_PCOV_Y : Nat := 107
def ALTFUNC_EXPR_PCOV_X2 : Nat := 108
def ALTFUNC_EXPR_PCOV_Y2 : Nat := 109
def ALTFUNC_EXPR_PCOV_XY : Nat := 110

def BOOLOID : Nat := 16
def INT8OID : Nat := 20
def INT2OID : Nat := 21
def INT4OID : Nat := 23
def FLOAT4OID : Nat := 700
def FLOAT8OID : Nat := 701
def CASHOID : Nat := 790
def DATEOID : Nat := 1082
def TIMEOID : Nat := 1083
def TIMESTAMPOID : Nat := 1114
def TIMESTAMPTZOID : Nat := 1184
def NUMERICOID : Nat := 1700
def ANYOID : Nat := 2276
def INTERNALOID : Nat := 2281

def DEVKERNEL_NEEDS_NUMERIC : Nat := 1
def DEVKERNEL_NEEDS_MONEY : Nat := 2

def INT_MAX : Nat := 2147483647
def SHRT_MAX : Nat := 32767

def StromError_Success : Nat := 0
def StromError_CpuReCheck : Nat := 1
def StromError_DataStoreNoSpace : Nat := 2

/-! ## Reduction modes (`GPUPREAGG_*_REDUCTION`, `cuda_gpupreagg.h`) -/

inductive ReductionMode where
  | invalid
  | nogroup
  | localReduction
  | globalReduction
  | finalReduction
  | onlyTermination
deriving DecidableEq, Repr

/-- Position of a mode along the forward order
`NO_GROUP → LOCAL → GLOBAL → FINAL_ONLY` used by the spec's monotonicity
property (`invalid` and `onlyTermination` do not take part in that order). -/
def modeRank : ReductionMode → Nat
  | .nogroup => 0
  | .localReduction => 1
  | .globalReduction => 2
  | .finalReduction => 3
  | .invalid => 4
  | .onlyTermination => 5

/-! ## Aggregate decomposition catalog (`aggfunc_catalog_t`, lines 270-707)

The `#ifdef GPUPREAGG_SUPPORT_NUMERIC` entries are included (the macro is
defined to 1 at line 267); the `#ifdef NOT_USED` entries are excluded.
`aggfn_argtypes` / `altfn_argtypes` / `altfn_argexprs` hold the first
`aggfn_nargs` / `altfn_nargs` elements of the corresponding fixed C arrays.
-/

structure AggfuncCatalogEntry where
  aggfn_name : String
  aggfn_nargs : Nat
  aggfn_argtypes : List Nat
  altfn_name : String
  altfn_nargs : Nat
  altfn_argtypes : List Nat
  altfn_argexprs : List Nat
  extra_flags : Nat
  safety_limit : Nat
deriving DecidableEq, Repr

/-- The six-column covariance argument list shared by the two-argument
statistical aggregates in the catalog. -/
def pcovarArgtypes : List Nat :=
  [INT8OID, FLOAT8OID, FLOAT8OID, FLOAT8OID, FLOAT8OID, FLOAT8OID]

def pcovarArgexprs : List Nat :=
  [ALTFUNC_EXPR_NROWS, ALTFUNC_EXPR_PCOV_X, ALTFUNC_EXPR_PCOV_X2,
   ALTFUNC_EXPR_PCOV_Y, ALTFUNC_EXPR_PCOV_Y2, ALTFUNC_EXPR_PCOV_XY]

def pvarianceArgtypes : List Nat := [INT8OID, FLOAT8OID, FLOAT8OID]

def pvarianceArgexprs : List Nat :=
  [ALTFUNC_EXPR_NROWS, ALTFUNC_EXPR_PSUM, ALTFUNC_EXPR_PSUM_X2]

def aggfunc_catalog : List AggfuncCatalogEntry := [
  -- AVG(X) = EX_AVG(NROWS(), PSUM(X))
  ⟨"avg", 1, [INT2OID], "s:pavg_int4", 2, [INT8OID, INT8OID],
   [ALTFUNC_EXPR_NROWS, ALTFUNC_EXPR_PSUM], 0, INT_MAX⟩,
  ⟨"avg", 1, [INT4OID], "s:pavg_int4", 2, [INT8OID, INT8OID],
   [ALTFUNC_EXPR_NROWS, ALTFUNC_EXPR_PSUM], 0, INT_MAX⟩,
  ⟨"avg", 1, [INT8OID], "s:pavg_int8", 3, [INTERNALOID, INT8OID, INT8OID],
   [ALTFUNC_CONST_NULL, ALTFUNC_EXPR_NROWS, ALTFUNC_EXPR_PSUM], 0, INT_MAX⟩,
  ⟨"avg", 1, [FLOAT4OID], "s:pavg_fp8", 2, [INT8OID, FLOAT8OID],
   [ALTFUNC_EXPR_NROWS, ALTFUNC_EXPR_PSUM], 0, INT_MAX⟩,
  ⟨"avg", 1, [FLOAT8OID], "s:pavg_fp8", 2, [INT8OID, FLOAT8OID],
   [ALTFUNC_EXPR_NROWS, ALTFUNC_EXPR_PSUM], 0, INT_MAX⟩,
  ⟨"avg", 1, [NUMERICOID], "s:pavg_numeric", 3,
   [INTERNALOID, INT8OID, NUMERICOID],
   [ALTFUNC_CONST_NULL, ALTFUNC_EXPR_NROWS, ALTFUNC_EXPR_PSUM],
   DEVKERNEL_NEEDS_NUMERIC, 100⟩,
  -- COUNT(*) = SUM(NROWS(*|X))
  ⟨"count", 0, [], "varref", 1, [INT8OID], [ALTFUNC_EXPR_NROWS], 0, INT_MAX⟩,
  ⟨"count", 1, [ANYOID], "varref", 1, [INT8OID], [ALTFUNC_EXPR_NROWS], 0,
   INT_MAX⟩,
  -- MAX(X) = MAX(PMAX(X))
  ⟨"max", 1, [INT2OID], "varref", 1, [INT2OID], [ALTFUNC_EXPR_PMAX], 0,
   INT_MAX⟩,
  ⟨"max", 1, [INT4OID], "varref", 1, [INT4OID], [ALTFUNC_EXPR_PMAX], 0,
   INT_MAX⟩,
  ⟨"max", 1, [INT8OID], "varref", 1, [INT8OID], [ALTFUNC_EXPR_PMAX], 0,
   INT_MAX⟩,
  ⟨"max", 1, [FLOAT4OID], "varref", 1, [FLOAT4OID], [ALTFUNC_EXPR_PMAX], 0,
   INT_MAX⟩,
  ⟨"max", 1, [FLOAT8OID], "varref", 1, [FLOAT8OID], [ALTFUNC_EXPR_PMAX], 0,
   INT_MAX⟩,
  ⟨"max", 1, [NUMERICOID], "varref", 1, [NUMERICOID], [ALTFUNC_EXPR_PMAX],
   DEVKERNEL_NEEDS_NUMERIC, INT_MAX⟩,
  ⟨"max", 1, [CASHOID], "varref", 1, [CASHOID], [ALTFUNC_EXPR_PMAX],
   DEVKERNEL_NEEDS_MONEY, INT_MAX⟩,
  ⟨"max", 1, [DATEOID], "varref", 1, [DATEOID], [ALTFUNC_EXPR_PMAX], 0,
   INT_MAX⟩,
  ⟨"max", 1, [TIMEOID], "varref", 1, [TIMEOID], [ALTFUNC_EXPR_PMAX], 0,
   INT_MAX⟩,
  ⟨"max", 1, [TIMESTAMPOID], "varref", 1, [TIMESTAMPOID],
   [ALTFUNC_EXPR_PMAX], 0, INT_MAX⟩,
  ⟨"max", 1, [TIMESTAMPTZOID], "varref", 1, [TIMESTAMPTZOID],
   [ALTFUNC_EXPR_PMAX], 0, INT_MAX⟩,
  -- MIX(X) = MIN(PMIN(X))  [comment of the source, line 375]
  ⟨"min", 1, [INT2OID], "varref", 1, [INT2OID], [ALTFUNC_EXPR_PMIN], 0,
   INT_MAX⟩,
  ⟨"min", 1, [INT4OID], "varref", 1, [INT4OID], [ALTFUNC_EXPR_PMIN], 0,
   INT_MAX⟩,
  ⟨"min", 1, [INT8OID], "varref", 1, [INT8OID], [ALTFUNC_EXPR_PMIN], 0,
   INT_MAX⟩,
  ⟨"min", 1, [FLOAT4OID], "varref", 1, [FLOAT4OID], [ALTFUNC_EXPR_PMIN], 0,
   INT_MAX⟩,
  ⟨"min", 1, [FLOAT8OID], "varref", 1, [FLOAT8OID], [ALTFUNC_EXPR_PMIN], 0,
   INT_MAX⟩,
  ⟨"min", 1, [NUMERICOID], "varref", 1, [NUMERICOID], [ALTFUNC_EXPR_PMIN],
   DEVKERNEL_NEEDS_NUMERIC, INT_MAX⟩,
  -- NOTE: the source (line 402-405) assigns ALTFUNC_EXPR_PMAX here.
  ⟨"min", 1, [CASHOID], "varref", 1, [CASHOID], [ALTFUNC_EXPR_PMAX],
   DEVKERNEL_NEEDS_MONEY, INT_MAX⟩,
  ⟨"min", 1, [DATEOID], "varref", 1, [DATEOID], [ALTFUNC_EXPR_PMIN], 0,
   INT_MAX⟩,
  ⟨"min", 1, [TIMEOID], "varref", 1, [TIMEOID], [ALTFUNC_EXPR_PMIN], 0,
   INT_MAX⟩,
  ⟨"min", 1, [TIMESTAMPOID], "varref", 1, [TIMESTAMPOID],
   [ALTFUNC_EXPR_PMIN], 0, INT_MAX⟩,
  ⟨"min", 1, [TIMESTAMPTZOID], "varref", 1, [TIMESTAMPTZOID],
   [ALTFUNC_EXPR_PMIN], 0, INT_MAX⟩,
  -- SUM(X) = SUM(PSUM(X))
  ⟨"sum", 1, [INT2OID], "varref", 1, [INT8OID], [ALTFUNC_EXPR_PSUM], 0,
   INT_MAX⟩,
  ⟨"sum", 1, [INT4OID], "varref", 1, [INT8OID], [ALTFUNC_EXPR_PSUM], 0,
   INT_MAX⟩,
  ⟨"sum", 1, [INT8OID], "s:psum", 2, [INTERNALOID, INT8OID],
   [ALTFUNC_CONST_NULL, ALTFUNC_EXPR_PSUM], 0, INT_MAX⟩,
  ⟨"sum", 1, [FLOAT4OID], "varref", 1, [FLOAT4OID], [ALTFUNC_EXPR_PSUM], 0,
   INT_MAX⟩,
  ⟨"sum", 1, [FLOAT8OID], "varref", 1, [FLOAT8OID], [ALTFUNC_EXPR_PSUM], 0,
   INT_MAX⟩,
  ⟨"sum", 1, [NUMERICOID], "s:psum", 2, [INTERNALOID, NUMERICOID],
   [ALTFUNC_CONST_NULL, ALTFUNC_EXPR_PSUM], DEVKERNEL_NEEDS_NUMERIC, 100⟩,
  ⟨"sum", 1, [CASHOID], "varref", 1, [CASHOID], [ALTFUNC_EXPR_PSUM],
   DEVKERNEL_NEEDS_MONEY, INT_MAX⟩,
  -- STDDEV(X) = EX_STDDEV(NROWS(),PSUM(X),PSUM(X*X))
  ⟨"stddev", 1, [FLOAT4OID], "s:pvariance", 3, pvarianceArgtypes,
   pvarianceArgexprs, 0, SHRT_MAX⟩,
  ⟨"stddev", 1, [FLOAT8OID], "s:pvariance", 3, pvarianceArgtypes,
   pvarianceArgexprs, 0, SHRT_MAX⟩,
  ⟨"stddev_pop", 1, [FLOAT4OID], "s:pvariance", 3, pvarianceArgtypes,
   pvarianceArgexprs, 0, SHRT_MAX⟩,
  ⟨"stddev_pop", 1, [FLOAT8OID], "s:pvariance", 3, pvarianceArgtypes,
   pvarianceArgexprs, 0, SHRT_MAX⟩,
  ⟨"stddev_samp", 1, [FLOAT4OID], "s:pvariance", 3, pvarianceArgtypes,
   pvarianceArgexprs, 0, SHRT_MAX⟩,
  ⟨"stddev_samp", 1, [FLOAT8OID], "s:pvariance", 3, pvarianceArgtypes,
   pvarianceArgexprs, 0, SHRT_MAX⟩,
  -- VARIANCE(X) = PGSTROM.VARIANCE(NROWS(), PSUM(X),PSUM(X^2))
  ⟨"variance", 1, [FLOAT4OID], "s:pvariance", 3, pvarianceArgtypes,
   pvarianceArgexprs, 0, SHRT_MAX⟩,
  ⟨"variance", 1, [FLOAT8OID], "s:pvariance", 3, pvarianceArgtypes,
   pvarianceArgexprs, 0, SHRT_MAX⟩,
  ⟨"var_pop", 1, [FLOAT4OID], "s:pvariance", 3, pvarianceArgtypes,
   pvarianceArgexprs, 0, SHRT_MAX⟩,
  ⟨"var_pop", 1, [FLOAT8OID], "s:pvariance", 3, pvarianceArgtypes,
   pvarianceArgexprs, 0, SHRT_MAX⟩,
  ⟨"var_samp", 1, [FLOAT4OID], "s:pvariance", 3, pvarianceArgtypes,
   pvarianceArgexprs, 0, SHRT_MAX⟩,
  ⟨"var_samp", 1, [FLOAT8OID], "s:pvariance", 3, pvarianceArgtypes,
   pvarianceArgexprs, 0, SHRT_MAX⟩,
  -- CORR(X,Y) and friends
  ⟨"corr", 2, [FLOAT8OID, FLOAT8OID], "s:pcovar", 6, pcovarArgtypes,
   pcovarArgexprs, 0, SHRT_MAX⟩,
  ⟨"covar_pop", 2, [FLOAT8OID, FLOAT8OID], "s:pcovar", 6, pcovarArgtypes,
   pcovarArgexprs, 0, SHRT_MAX⟩,
  ⟨"covar_samp", 2, [FLOAT8OID, FLOAT8OID], "s:pcovar", 6, pcovarArgtypes,
   pcovarArgexprs, 0, SHRT_MAX⟩,
  -- least squares method aggregates
  ⟨"regr_avgx", 2, [FLOAT8OID, FLOAT8OID], "s:pcovar", 6, pcovarArgtypes,
   pcovarArgexprs, 0, SHRT_MAX⟩,
  ⟨"regr_avgy", 2, [FLOAT8OID, FLOAT8OID], "s:pcovar", 6, pcovarArgtypes,
   pcovarArgexprs, 0, SHRT_MAX⟩,
  ⟨"regr_count", 2, [FLOAT8OID, FLOAT8OID], "varref", 1, [INT8OID],
   [ALTFUNC_EXPR_NROWS], 0, 0⟩,
  ⟨"regr_intercept", 2, [FLOAT8OID, FLOAT8OID], "s:pcovar", 6,
   pcovarArgtypes, pcovarArgexprs, 0, SHRT_MAX⟩,
  ⟨"regr_r2", 2, [FLOAT8OID, FLOAT8OID], "s:pcovar", 6, pcovarArgtypes,
   pcovarArgexprs, 0, SHRT_MAX⟩,
  ⟨"regr_slope", 2, [FLOAT8OID, FLOAT8OID], "s:pcovar", 6, pcovarArgtypes,
   pcovarArgexprs, 0, SHRT_MAX⟩,
  ⟨"regr_sxx", 2, [FLOAT8OID, FLOAT8OID], "s:pcovar", 6, pcovarArgtypes,
   pcovarArgexprs, 0, SHRT_MAX⟩,
  ⟨"regr_sxy", 2, [FLOAT8OID, FLOAT8OID], "s:pcovar", 6, pcovarArgtypes,
   pcovarArgexprs, 0, SHRT_MAX⟩,
  ⟨"regr_syy", 2, [FLOAT8OID, FLOAT8OID], "s:pcovar", 6, pcovarArgtypes,
   pcovarArgexprs, 0, SHRT_MAX⟩]

/-- The catalog scan of `aggfunc_lookup_by_oid` (lines 721-734): first entry
whose name, arity and ordered argument type list match exactly.  The syscache
step that resolves the aggregate OID to its (name, nargs, argtypes) triple is
outside the core; the lookup is modelled on the triple directly. -/
def aggfunc_lookup (name : String) (argtypes : List Nat) :
    Option AggfuncCatalogEntry :=
  aggfunc_catalog.find? fun cat =>
    cat.aggfn_name = name && cat.aggfn_nargs = argtypes.length &&
      cat.aggfn_argtypes = argtypes

/-! ## Expression trees for the partial-state constructors

`make_expr_conditional` (lines 1341-1386) builds a `CASE WHEN filter THEN expr
ELSE default END` node, the default being a typed zero constant when
`zero_if_unmatched` and a NULL constant otherwise.  `make_altfunc_nrows_expr`
(lines 1398-1438) builds the ROW-COUNT partial-state expression from the
aggregate's argument expressions and optional FILTER clause.  The PostgreSQL
node types used by those two constructors are embedded below together with
their SQL evaluation semantics (three-valued logic for `AND`, `CASE` taking
the default branch when the condition is false *or* null).  Values are
nullable integers; SQL booleans are encoded with 0 = false / nonzero = true.
-/

inductive SqlExpr where
  /-- A constant with an is-null flag (`makeConst` / `makeNullConst`). -/
  | constVal (v : Int) (isnull : Bool)
  /-- an argument expression, read from the input row (nullable). -/
  | varRef (idx : Nat)
  /-- A `NullTest` node with `IS_NOT_NULL`. -/
  | isNotNullTest (e : SqlExpr)
  /-- SQL `AND` over a list of boolean expressions (`make_andclause`). -/
  | andClause (args : List SqlExpr)
  /-- A `CaseExpr` with a single `CaseWhen` arm and a default result. -/
  | caseWhenExpr (cond result defresult : SqlExpr)

/-- SQL truthiness of a nullable value: null and 0 are not true. -/
def sqlTruthy : Option Int → Bool
  | none => false
  | some v => v != 0

/-- Three-valued SQL `AND` on nullable booleans. -/
def sqlAnd : Option Int → Option Int → Option Int
  | some a, some b => some (if a != 0 && b != 0 then 1 else 0)
  | some a, none => if a = 0 then some 0 else none
  | none, some b => if b = 0 then some 0 else none
  | none, none => none

mutual

def evalExpr : SqlExpr → (Nat → Option Int) → Option Int
  | .constVal v isnull, _ => if isnull then none else some v
  | .varRef idx, row => row idx
  | .isNotNullTest e, row => some (if (evalExpr e row).isSome then 1 else 0)
  | .andClause args, row => evalAndList args row
  | .caseWhenExpr cond result defresult, row =>
      if sqlTruthy (evalExpr cond row) then evalExpr result row
      else evalExpr defresult row

def evalAndList : List SqlExpr → (Nat → Option Int) → Option Int
  | [], _ => some 1
  | e :: es, row => sqlAnd (evalExpr e row) (evalAndList es row)

end

/-- Constructor `make_expr_conditional(expr, filter, zero_if_unmatched)`, lines 1341-1386:
`CASE WHEN filter THEN expr ELSE (0 | NULL) END`. -/
def make_expr_conditional (expr filter : SqlExpr)
    (zero_if_unmatched : Bool) : SqlExpr :=
  .caseWhenExpr filter expr
    (if zero_if_unmatched then .constVal 0 false else .constVal 0 true)

/-- The tail of `make_altfunc_nrows_expr` (lines 1423-1437): the constant 1
returned bare when there is no condition, guarded by the single condition or
by their `make_andclause` conjunction otherwise, with
`zero_if_unmatched = true`. -/
def nrows_guarded (nrows_args : List SqlExpr) : SqlExpr :=
  match nrows_args with
  | [] => .constVal 1 false
  | [c] => make_expr_conditional (.constVal 1 false) c true
  | cs => make_expr_conditional (.constVal 1 false) (.andClause cs) true

/-- Constructor `make_altfunc_nrows_expr(aggref)`, lines 1401-1438: one `IS NOT NULL`
test per aggregate argument, plus the FILTER clause when present; the
constant 1 guarded by their conjunction. -/
def make_altfunc_nrows_expr (args : List SqlExpr)
    (aggfilter : Option SqlExpr) : SqlExpr :=
  nrows_guarded
    (args.map SqlExpr.isNotNullTest ++
      (match aggfilter with | some f => [f] | none => []))

/-! ## Device target-list builder (`build_custom_scan_tlist`, lines 1643-1848)

The builder walks the query target list.  An `Aggref` entry contributes, per
catalog action, a synthesized partial-state expression: `ALTFUNC_CONST_NULL`
placeholders are skipped, every other action's expression is looked up among
the device columns already emitted (same action code and `equal()`
expression, lines 1734-1743) and appended only when absent.  A non-aggregate
entry is appended unconditionally, tagged `ALTFUNC_GROUPING_KEY` or
`ALTFUNC_CONST_VALUE` (lines 1832-1841).  Expressions are abstracted by a
type with decidable (structural) equality; the per-action synthesis
(`make_altfunc_*` plus the `make_expr_typecast` coercion) is abstracted by
the `synth` field of an aggregate entry.
-/

inductive TlistEntry (E : Type) where
  | aggref (actions : List Nat) (synth : Nat → E)
  | plainEntry (e : E) (is_grouping_key : Bool)

/-- The dedup-append of lines 1734-1749: scan `tlist_dev` (paired with its
action list) for an entry with the same action and equal expression; append
a fresh `(action, expr)` column only when none is found. -/
def tlist_dev_insert {E : Type} [DecidableEq E] (dev : List (Nat × E))
    (action : Nat) (e : E) : List (Nat × E) :=
  if dev.any (fun p => p.1 = action && p.2 = e) then dev
  else dev ++ [(action, e)]

/-- One step of the builder's outer `foreach` loop. -/
def build_dev_step {E : Type} [DecidableEq E] (dev : List (Nat × E)) :
    TlistEntry E → List (Nat × E)
  | .aggref actions synth =>
      actions.foldl
        (fun dev action =>
          if action = ALTFUNC_CONST_NULL then dev
          else tlist_dev_insert dev action (synth action))
        dev
  | .plainEntry e is_key =>
      dev ++ [(if is_key then ALTFUNC_GROUPING_KEY else ALTFUNC_CONST_VALUE,
               e)]

/-- The device target list (with its action tags) built by
`build_custom_scan_tlist` for a given input target list. -/
def build_custom_scan_tlist_dev {E : Type} [DecidableEq E]
    (tlist : List (TlistEntry E)) : List (Nat × E) :=
  tlist.foldl build_dev_step []

/-! ## Projection codegen: null sentinels (`gpupreagg_codegen_projection`)

For every aggregate-argument column (action ≥ `ALTFUNC_EXPR_NROWS`) the
generated projection stores, when the input expression is null, a
type-specific sentinel into `dst_values` (lines 2231-2262): the source picks
`dtype->min_const` for `ALTFUNC_EXPR_PMIN`, `dtype->max_const` for
`ALTFUNC_EXPR_PMAX` and `dtype->zero_const` otherwise.  `devtype_info`'s
sentinel fields are the *values* denoted by the C literal strings the code
generator would emit (`none` when the device type supplies no such literal,
which the source turns into a fatal error). -/

structure devtype_info where
  type_name : String
  min_const : Option Int
  max_const : Option Int
  zero_const : Option Int
deriving DecidableEq, Repr

/-- The `null_const_value` selection of lines 2240-2251, verbatim from the
source. -/
def gpupreagg_codegen_null_sentinel (dtype : devtype_info) (action : Nat) :
    Option Int :=
  if action = ALTFUNC_EXPR_PMIN then dtype.min_const
  else if action = ALTFUNC_EXPR_PMAX then dtype.max_const
  else dtype.zero_const

/-- Modelled from the spec (§4.3 item 1): the sentinel the projection *must*
store for a missing input — "when the designated null-handling policy is
MIN/MAX, missing input initializes the output to the type's maximum/minimum
sentinel value (not null) because subsequent atomic reduction compares values
rather than nullability; for SUM-like roles, missing input initializes to the
zero sentinel".  PMIN therefore takes the maximum sentinel and PMAX the
minimum one. -/
def spec_null_sentinel (dtype : devtype_info) (action : Nat) : Option Int :=
  if action = ALTFUNC_EXPR_PMIN then dtype.max_const
  else if action = ALTFUNC_EXPR_PMAX then dtype.min_const
  else dtype.zero_const

/-- The `int4` device type: 32-bit signed integer sentinels. -/
def int4_devtype : devtype_info :=
  ⟨"int4", some (-2147483648), some 2147483647, some 0⟩

/-- The value the projection kernel stores into `dst_values` for one input:
the input value itself when present, else the source's null sentinel
(`dst_isnull` is set alongside, but the reduction combiners compare
`dst_values`). -/
def projected_value (dtype : devtype_info) (action : Nat)
    (input : Option Int) : Option Int :=
  match input with
  | some v => some v
  | none => gpupreagg_codegen_null_sentinel dtype action

/-- Modelled from the spec (§4.3 item 4, §8): the device MAX combiner (the
kernel source lives in `cuda_gpupreagg.h`, outside `src/`) "compares values
rather than nullability" — a fold of `max` over the projected column
values. -/
def spec_pmax_combine (dtype : devtype_info) (inputs : List (Option Int)) :
    Option Int :=
  (inputs.map (projected_value dtype ALTFUNC_EXPR_PMAX)).foldr
    (fun a acc =>
      match a, acc with
      | some v, some w => some (max v w)
      | some v, none => some v
      | none, x => x)
    none

/-! ## Task state (`GpuPreAggTask` / `kern_gpupreagg`) and its constructor -/

/-- The `kern_gpupreagg` fields the lifecycle claims depend on. -/
structure KernGpuPreAgg where
  reduction_mode : ReductionMode
  nitems_real : Nat
  hash_size : Nat
  progress_final : Bool
deriving DecidableEq, Repr

/-- The working `kds_slot` header fields resized by the overflow handler. -/
structure KdsSlotHead where
  nrooms : Nat
deriving DecidableEq, Repr

structure GpuPreAggTaskState where
  kern : KernGpuPreAgg
  kds_head : KdsSlotHead
  /-- field `task.kerror.errcode` -/
  kerror : Nat
  cpu_fallback : Bool
  is_retry : Bool
deriving DecidableEq, Repr

/-- Format tags `KDS_FORMAT_*` (values are symbolic; only distinctness is used). -/
def KDS_FORMAT_ROW : Nat := 2
def KDS_FORMAT_BLOCK : Nat := 4

structure kern_data_store_head where
  format : Nat
  nitems : Nat
deriving DecidableEq, Repr

/-- The `pgstrom_data_store` input batch, as read by the task constructor. -/
structure pgstrom_data_store_in where
  kds : kern_data_store_head
deriving DecidableEq, Repr

/-- Constructor `gpupreagg_create_task` (lines 3039-3113).  The C function dereferences
`pds_in->kds` at line 3050 before any NULL check, so a NULL batch is modelled
as `none` in and failure (`none`) out.  For a present batch: `nitems_real` is
the batch row count, scaled by `nrows_per_block` for `KDS_FORMAT_BLOCK`
input (lines 3055-3061); `hash_size` starts at `nitems_real` (line 3087);
the reduction mode is `NOGROUP` exactly when the query has no grouping keys,
else `INVALID` pending the run-time decision (lines 3082-3084); the task
starts clean (`memset`, `is_retry = false`). -/
def gpupreagg_create_task (num_group_keys : Nat) (nrows_per_block : Nat)
    (pds_in : Option pgstrom_data_store_in) (_is_last_task : Bool) :
    Option GpuPreAggTaskState :=
  match pds_in with
  | none => none
  | some pds =>
    let nitems_real :=
      if pds.kds.format = KDS_FORMAT_BLOCK then
        pds.kds.nitems * nrows_per_block
      else pds.kds.nitems
    some
      { kern :=
          { reduction_mode :=
              if num_group_keys = 0 then .nogroup else .invalid,
            nitems_real := nitems_real,
            hash_size := nitems_real,
            progress_final := false },
        kds_head := { nrooms := nitems_real },
        kerror := StromError_Success,
        cpu_fallback := false,
        is_retry := false }

/-- Callback `gpupreagg_next_task` (lines 3122-3188), non-relation branch: rows are
pulled from the outer plan into an on-demand batch; when the outer plan
yields nothing the batch is never created (`pds == NULL`), yet
`gpupreagg_create_task` is invoked unconditionally at line 3187.  The outer
rows are abstracted to a count. -/
def gpupreagg_next_task (num_group_keys nrows_per_block : Nat)
    (outer_rows : List Unit) : Option GpuPreAggTaskState :=
  let pds : Option pgstrom_data_store_in :=
    match outer_rows with
    | [] => none
    | rs => some ⟨⟨KDS_FORMAT_ROW, rs.length⟩⟩
  gpupreagg_create_task num_group_keys nrows_per_block pds true

/-! ## Run-time reduction-strategy selector (`gpupreagg_setup_strategy`)

Lines 3461-3490: under `gpa_sstate->lock`, a task whose mode is still
`INVALID` receives a mode from a blend of the planner's group estimate
(`plan_ngroups`) and the observed group count (`exec_ngroups`), weighted by
`Min(num_tasks, 30) / 30` where `num_tasks` is the total of the four per-mode
task counters.  The `cl_double` arithmetic is modelled exactly over `ℚ`;
`devBaselineMaxThreadsPerBlock / 4` and `nitems_real / 4` are C integer
divisions. -/

/-- The statistics fields of `GpuPreAggSharedState` read by the selector. -/
structure GpuPreAggSharedStats where
  plan_ngroups : Nat
  exec_ngroups : Nat
  n_tasks_nogrp : Nat
  n_tasks_local : Nat
  n_tasks_global : Nat
  n_tasks_final : Nat
deriving DecidableEq, Repr

/-- The `real_ngroups` computation of lines 3467-3479: the statistics-weighted blend. -/
def gpupreagg_real_ngroups (st : GpuPreAggSharedStats) : ℚ :=
  let num_tasks : ℚ :=
    ((st.n_tasks_nogrp + st.n_tasks_local + st.n_tasks_global +
        st.n_tasks_final : Nat) : ℚ)
  let exec_ratio : ℚ := min num_tasks 30 / 30
  (st.plan_ngroups : ℚ) * (1 - exec_ratio) +
    (st.exec_ngroups : ℚ) * exec_ratio

/-- The mode decision of lines 3464-3490: only an `INVALID` task is decided;
`LOCAL` below `devBaselineMaxThreadsPerBlock / 4`, `GLOBAL` below
`nitems_real / 4`, else `FINAL`. -/
def gpupreagg_setup_strategy_mode (st : GpuPreAggSharedStats)
    (mode : ReductionMode) (nitems_real devBaselineMaxThreadsPerBlock : Nat) :
    ReductionMode :=
  if mode = .invalid then
    if gpupreagg_real_ngroups st <
        ((devBaselineMaxThreadsPerBlock / 4 : Nat) : ℚ) then
      .localReduction
    else if gpupreagg_real_ngroups st < ((nitems_real / 4 : Nat) : ℚ) then
      .globalReduction
    else
      .finalReduction
  else mode

/-- Written from the claim's words: the blended estimate of the expected
distinct-group count, its weight on the observed count saturating after 30
completed tasks. -/
def spec_expected_groups (plan_estimate observed completed_tasks : Nat) : ℚ :=
  let w : ℚ := min (completed_tasks : ℚ) 30 / 30
  (plan_estimate : ℚ) * (1 - w) + (observed : ℚ) * w

/-- Written from the claim's words: `LOCAL` when the blended estimate is
below the device's maximum threads per block divided by 4, `GLOBAL` when it
is below a quarter of the chunk's real row count, `FINAL-ONLY` otherwise. -/
def spec_mode_for_grouped (plan_estimate observed completed_tasks
    chunk_nitems max_threads_per_block : Nat) : ReductionMode :=
  if spec_expected_groups plan_estimate observed completed_tasks <
      ((max_threads_per_block / 4 : Nat) : ℚ) then .localReduction
  else if spec_expected_groups plan_estimate observed completed_tasks <
      ((chunk_nitems / 4 : Nat) : ℚ) then .globalReduction
  else .finalReduction

/-! ## Task completion handler (`gpupreagg_complete_task`, lines 4072-4228)

The handler runs on the GPU-server side after the kernel callback.  Its
return value: `0` hand the task back to the backend, `1` re-enqueue it
(retry or termination), `-1` release it immediately.  The view of the shared
state it mutates: the attached `pds_final`'s `ntasks_running` /
`is_dereferenced`, whether `gpa_sstate` still points at that buffer, and the
`gpa_sstate` result statistics (which this function never touches). -/

structure GpuPreAggSharedView where
  ntasks_running : Nat
  is_dereferenced : Bool
  /-- whether `gpa_sstate->pds_final == pds_final` for this task's buffer. -/
  sstate_points_here : Bool
  f_nitems : Nat
  f_extra_sz : Nat
deriving DecidableEq, Repr

structure CompleteTaskResult where
  task : GpuPreAggTaskState
  shared : GpuPreAggSharedView
  retval : Int
  /-- a cloned urgent terminator was pushed (`gpupreagg_push_terminator_task`). -/
  pushed_terminator : Bool
deriving DecidableEq, Repr

def gpupreagg_complete_task (t : GpuPreAggTaskState)
    (sh : GpuPreAggSharedView) : CompleteTaskResult :=
  if t.kern.reduction_mode = .onlyTermination then
    -- lines 4086-4108: the terminator only cleans up; nothing else changes.
    ⟨t, sh, 0, false⟩
  else if t.kerror = StromError_DataStoreNoSpace then
    if t.kern.progress_final = false then
      -- scenario-1 (lines 4133-4154): enlarge the working hash/slot buffers
      -- to nitems_real and retry; the shared buffer is not touched.
      ⟨{ t with
          kern := { t.kern with
            hash_size := max t.kern.hash_size t.kern.nitems_real },
          kds_head := { nrooms := t.kern.nitems_real },
          is_retry := true },
        sh, 1, false⟩
    else
      -- scenario-2 (lines 4157-4179): dereference and detach the buffer,
      -- drop this task's running count, push an urgent terminator when it
      -- was the last runner, then retry only the final reduction.
      let ntasks := sh.ntasks_running - 1
      ⟨{ t with
          kern := { t.kern with reduction_mode := .finalReduction },
          is_retry := true },
        { sh with
          ntasks_running := ntasks,
          is_dereferenced := true,
          sstate_points_here := false },
        1, ntasks = 0⟩
  else
    -- lines 4183-4226
    let ntasks := sh.ntasks_running - 1
    let is_terminator := ntasks = 0 && sh.is_dereferenced
    let t1 :=
      if t.kerror = StromError_CpuReCheck && t.kern.progress_final = false
      then { t with kerror := StromError_Success, cpu_fallback := true }
      else t
    let sh1 := { sh with ntasks_running := ntasks }
    if t1.kerror = StromError_Success then
      if is_terminator then
        ⟨{ t1 with
            kern := { t1.kern with reduction_mode := .onlyTermination } },
          sh1, 1, false⟩
      else ⟨t1, sh1, -1, false⟩
    else ⟨t1, sh1, 0, false⟩

/-- Consumer `gpupreagg_next_tuple` (lines 3242-3263): the row-at-a-time fallback
path is taken exactly when the task carries `cpu_fallback`. -/
def gpupreagg_next_tuple_uses_fallback (t : GpuPreAggTaskState) : Bool :=
  t.cpu_fallback

/-! ## Shared final-buffer lifecycle (claim C1)

One `pds_final` buffer, observed through the fields mutated under
`gpa_sstate->lock`.  The events are the code paths that touch
`ntasks_running` / `is_dereferenced`:

* creation (`__gpupreagg_setup_strategy`, lines 3300-3310): the buffer is
  born with one running task, not dereferenced, referenced by the shared
  state;
* attach (`gpupreagg_setup_strategy`, lines 3503-3504, and the last-task
  marking of lines 3426-3434): a new task can attach only while the shared
  state still points at the buffer; the last task additionally marks the
  buffer dereferenced and detaches it;
* completion with `DataStoreNoSpace` before `progress_final`
  (lines 4133-4154): the buffer is untouched;
* completion with `DataStoreNoSpace` after `progress_final`
  (lines 4157-4179): the buffer is marked dereferenced, detached, the
  running count dropped, and an urgent terminator pushed when the count hit
  zero;
* any other completion (lines 4183-4187, 4209-4216): the running count is
  dropped and the task itself becomes the terminator when the count hit
  zero on a dereferenced buffer;
* the terminator's own completion (lines 4086-4107 with
  `gpupreagg_cleanup_cuda_resources(•, true)`, lines 3575-3581): the
  buffer's device memory is released.

`terminator_fired` records that the termination step was activated (either
by re-enqueueing the completing task with `GPUPREAGG_ONLY_TERMINATION` or by
`gpupreagg_push_terminator_task`); `device_mem_freed` that the terminator
completed and `m_kds_final` was released. -/

structure FinalBufferState where
  ntasks_running : Nat
  is_dereferenced : Bool
  /-- whether `gpa_sstate->pds_final` still points at this buffer. -/
  attached : Bool
  terminator_fired : Bool
  device_mem_freed : Bool
deriving DecidableEq, Repr

/-- The buffer as created by `__gpupreagg_setup_strategy` (lines 3300-3310):
`ntasks_running = 1`, `is_dereferenced = false`, referenced by the shared
state. -/
def initialFinalBuffer : FinalBufferState :=
  { ntasks_running := 1, is_dereferenced := false, attached := true,
    terminator_fired := false, device_mem_freed := false }

inductive FinalBufferStep : FinalBufferState → FinalBufferState → Prop where
  /-- a task attaches under the lock (`setup_strategy`); when it is the last
  task it marks the buffer dereferenced and detaches it from the shared
  state. -/
  | attach (s : FinalBufferState) (is_last_task : Bool)
      (h : s.attached = true) :
      FinalBufferStep s
        { s with
          ntasks_running := s.ntasks_running + 1,
          is_dereferenced := s.is_dereferenced || is_last_task,
          attached := s.attached && !is_last_task }
  /-- completion with `DataStoreNoSpace`, `progress_final` not set: the task
  retries with larger working buffers; the shared buffer is untouched. -/
  | completeNoSpaceEarly (s : FinalBufferState)
      (h : 0 < s.ntasks_running) : FinalBufferStep s s
  /-- completion with `DataStoreNoSpace` after the final buffer was touched:
  dereference, detach, drop the running count, fire the urgent terminator
  when this was the last runner. -/
  | completeNoSpaceFinal (s : FinalBufferState)
      (h : 0 < s.ntasks_running) :
      FinalBufferStep s
        { ntasks_running := s.ntasks_running - 1,
          is_dereferenced := true,
          attached := false,
          terminator_fired :=
            s.terminator_fired || decide (s.ntasks_running - 1 = 0),
          device_mem_freed := s.device_mem_freed }
  /-- any other completion (success, CpuReCheck, fatal error): drop the
  running count; the task becomes the terminator when the count reaches
  zero on a dereferenced buffer. -/
  | completeNormal (s : FinalBufferState) (h : 0 < s.ntasks_running) :
      FinalBufferStep s
        { s with
          ntasks_running := s.ntasks_running - 1,
          terminator_fired :=
            s.terminator_fired ||
              (decide (s.ntasks_running - 1 = 0) && s.is_dereferenced) }
  /-- the fired terminator completes: device memory of the final buffer is
  released. -/
  | terminatorCompletes (s : FinalBufferState)
      (h : s.terminator_fired = true) :
      FinalBufferStep s { s with device_mem_freed := true }

/-- States reachable from buffer creation by any sequence of attach /
completion events. -/
inductive FinalBufferReachable : FinalBufferState → Prop where
  | init : FinalBufferReachable initialFinalBuffer
  | step {s t : FinalBufferState} : FinalBufferReachable s →
      FinalBufferStep s t → FinalBufferReachable t

/-- The inductive invariant of the buffer lifecycle. -/
def FinalBufferInv (s : FinalBufferState) : Prop :=
  (s.terminator_fired = true ↔
    (s.ntasks_running = 0 ∧ s.is_dereferenced = true)) ∧
  (s.device_mem_freed = true → s.terminator_fired = true) ∧
  (s.is_dereferenced = true → s.attached = false)

/-! ## Theorems -/

/-- C9 (code_bug evidence).  The aggregate decomposition catalog is meant
to map every `min` aggregate to the partial-minimum role — the source's own
block comment (line 375) reads `MIX(X) = MIN(PMIN(X))`, and every other
`min` entry does so — but the `min(money)` entry (lines 402-405) assigns
`ALTFUNC_EXPR_PMAX`, so the final merge would compute MIN over per-chunk
*maxima*. -/
theorem min_money_catalog_assigns_pmax :
    (aggfunc_lookup "min" [CASHOID]).map AggfuncCatalogEntry.altfn_argexprs =
      some [ALTFUNC_EXPR_PMAX] ∧
    ALTFUNC_EXPR_PMAX ≠ ALTFUNC_EXPR_PMIN ∧
    (aggfunc_catalog.all fun e =>
      !(e.aggfn_name == "min") || (e.aggfn_argtypes == [CASHOID]) ||
        (e.altfn_argexprs == [ALTFUNC_EXPR_PMIN])) = true := by
  refine ⟨rfl, by decide, by decide⟩

/-- C8 (code_bug evidence).  The projection code generator (lines
2240-2251) stores `dtype->min_const` for a null `PMIN` input and
`dtype->max_const` for a null `PMAX` input — the opposite of what the spec
requires (`spec_null_sentinel`): with the source's choice, a compare-based
MAX reduction over `int4` sees the *maximum* sentinel for a null row, so
MAX over an empty (all-null) partition reports `INT_MAX` and a null row
beats every real value (`MAX{NULL, 5}` becomes `INT_MAX`, not `5`). -/
theorem pmax_null_sentinel_swapped :
    gpupreagg_codegen_null_sentinel int4_devtype ALTFUNC_EXPR_PMAX =
      some 2147483647 ∧
    gpupreagg_codegen_null_sentinel int4_devtype ALTFUNC_EXPR_PMIN =
      some (-2147483648) ∧
    spec_null_sentinel int4_devtype ALTFUNC_EXPR_PMAX =
      some (-2147483648) ∧
    spec_null_sentinel int4_devtype ALTFUNC_EXPR_PMIN =
      some 2147483647 ∧
    spec_pmax_combine int4_devtype [none] = some 2147483647 ∧
    spec_pmax_combine int4_devtype [none, some 5] = some 2147483647 := by
  decide

/-- C10.  `gpupreagg_create_task` reads `pds_in->kds` (line 3050) before
any NULL check, so it only succeeds on a present batch; yet
`gpupreagg_next_task` (line 3187) invokes it unconditionally with the `pds`
that remains NULL when the outer plan yields no row. -/
theorem create_task_requires_input_batch :
    (∀ num_group_keys nrows_per_block is_last,
      gpupreagg_create_task num_group_keys nrows_per_block none is_last =
        none) ∧
    (∀ num_group_keys nrows_per_block pds is_last,
      (gpupreagg_create_task num_group_keys nrows_per_block (some pds)
          is_last).isSome = true) ∧
    gpupreagg_next_task 1 0 [] = none := by
  refine ⟨fun _ _ _ => rfl, fun _ _ _ _ => rfl, rfl⟩

/-- The task constructor establishes `hash_size = nitems_real`
(lines 3085-3087); this is the invariant under which the overflow handler's
`Max(hash_size, nitems_real)` equals `nitems_real` exactly. -/
theorem create_task_hash_size_eq_nitems_real (num_group_keys nrows_per_block :
    Nat) (pds : pgstrom_data_store_in) (is_last : Bool)
    (t : GpuPreAggTaskState)
    (h : gpupreagg_create_task num_group_keys nrows_per_block (some pds)
      is_last = some t) :
    t.kern.hash_size = t.kern.nitems_real := by
  simp [gpupreagg_create_task] at h
  subst h
  rfl

/-- C2.  A completed reduction task reporting `DataStoreNoSpace` with
`progress_final` unset (scenario-1, lines 4133-4154) enlarges its own
working hash/slot capacity to exactly the observed `nitems_real`
(`hash_size` was created equal to `nitems_real`, so `Max` yields it
exactly), marks itself for retry with return value 1, and leaves the shared
buffer and shared-state fields untouched. -/
theorem nospace_early_retry_resizes_to_nitems_real
    (t : GpuPreAggTaskState) (sh : GpuPreAggSharedView)
    (hmode : t.kern.reduction_mode ≠ ReductionMode.onlyTermination)
    (herr : t.kerror = StromError_DataStoreNoSpace)
    (hprog : t.kern.progress_final = false)
    (hsz : t.kern.hash_size ≤ t.kern.nitems_real) :
    (gpupreagg_complete_task t sh).task.kern.hash_size =
      t.kern.nitems_real ∧
    (gpupreagg_complete_task t sh).task.kds_head.nrooms =
      t.kern.nitems_real ∧
    (gpupreagg_complete_task t sh).task.is_retry = true ∧
    (gpupreagg_complete_task t sh).retval = 1 ∧
    (gpupreagg_complete_task t sh).shared = sh ∧
    (gpupreagg_complete_task t sh).pushed_terminator = false := by
  simp only [gpupreagg_complete_task, if_neg hmode, herr, if_pos rfl, hprog]
  simp [Nat.max_eq_right hsz]

/-- Witness for C2 at a concrete task/shared state. -/
theorem nospace_early_retry_resizes_to_nitems_real_witness :
    (gpupreagg_complete_task
        ⟨⟨ReductionMode.localReduction, 10, 7, false⟩, ⟨7⟩,
          StromError_DataStoreNoSpace, false, false⟩
        ⟨3, false, true, 5, 9⟩).task.kern.hash_size = 10 ∧
    (gpupreagg_complete_task
        ⟨⟨ReductionMode.localReduction, 10, 7, false⟩, ⟨7⟩,
          StromError_DataStoreNoSpace, false, false⟩
        ⟨3, false, true, 5, 9⟩).task.kds_head.nrooms = 10 ∧
    (gpupreagg_complete_task
        ⟨⟨ReductionMode.localReduction, 10, 7, false⟩, ⟨7⟩,
          StromError_DataStoreNoSpace, false, false⟩
        ⟨3, false, true, 5, 9⟩).task.is_retry = true ∧
    (gpupreagg_complete_task
        ⟨⟨ReductionMode.localReduction, 10, 7, false⟩, ⟨7⟩,
          StromError_DataStoreNoSpace, false, false⟩
        ⟨3, false, true, 5, 9⟩).retval = 1 ∧
    (gpupreagg_complete_task
        ⟨⟨ReductionMode.localReduction, 10, 7, false⟩, ⟨7⟩,
          StromError_DataStoreNoSpace, false, false⟩
        ⟨3, false, true, 5, 9⟩).shared = ⟨3, false, true, 5, 9⟩ ∧
    (gpupreagg_complete_task
        ⟨⟨ReductionMode.localReduction, 10, 7, false⟩, ⟨7⟩,
          StromError_DataStoreNoSpace, false, false⟩
        ⟨3, false, true, 5, 9⟩).pushed_terminator = false :=
  nospace_early_retry_resizes_to_nitems_real _ _ (by decide) rfl rfl
    (by decide)

/-- C3.  For a completed reduction task (any error code, initially not in
fallback), the completion handler switches it to the CPU fallback path
exactly when the device error is the recoverable `CpuReCheck` *and* the task
had not yet touched the shared final buffer (`progress_final` false); the
switch clears the error, and `gpupreagg_next_tuple` consumes exactly the
`cpu_fallback` flag.  A `CpuReCheck` arriving after `progress_final` is not
converted: the error is kept and the task is handed back (return 0) as a
fatal error. -/
theorem cpu_fallback_iff_recheck_before_final
    (t : GpuPreAggTaskState) (sh : GpuPreAggSharedView)
    (hmode : t.kern.reduction_mode ≠ ReductionMode.onlyTermination)
    (hcf : t.cpu_fallback = false) :
    ((gpupreagg_complete_task t sh).task.cpu_fallback = true ↔
      (t.kerror = StromError_CpuReCheck ∧
        t.kern.progress_final = false)) ∧
    ((gpupreagg_complete_task t sh).task.cpu_fallback = true →
      (gpupreagg_complete_task t sh).task.kerror = StromError_Success) ∧
    (gpupreagg_next_tuple_uses_fallback (gpupreagg_complete_task t sh).task =
      (gpupreagg_complete_task t sh).task.cpu_fallback) ∧
    (t.kerror = StromError_CpuReCheck → t.kern.progress_final = true →
      (gpupreagg_complete_task t sh).task.kerror = StromError_CpuReCheck ∧
      (gpupreagg_complete_task t sh).retval = 0) := by
  by_cases hns : t.kerror = StromError_DataStoreNoSpace
  · have hnr : ¬ t.kerror = StromError_CpuReCheck := by
      rw [hns]; decide
    by_cases hpf : t.kern.progress_final = false
    · simp only [gpupreagg_complete_task, if_neg hmode, if_pos hns,
        if_pos hpf]
      simp [hcf, hnr, gpupreagg_next_tuple_uses_fallback]
    · simp only [gpupreagg_complete_task, if_neg hmode, if_pos hns,
        if_neg hpf]
      simp [hcf, hnr, gpupreagg_next_tuple_uses_fallback]
  · simp only [gpupreagg_complete_task, if_neg hmode, if_neg hns]
    by_cases hrc : t.kerror = StromError_CpuReCheck
    · by_cases hpf : t.kern.progress_final = false
      · simp only [hrc, hpf]
        split_ifs <;>
          simp_all [gpupreagg_next_tuple_uses_fallback, StromError_Success,
            StromError_CpuReCheck]
      · have hpt : t.kern.progress_final = true := by
          simpa using hpf
        simp only [hrc, hpt]
        split_ifs <;>
          simp_all [hcf, gpupreagg_next_tuple_uses_fallback,
            StromError_Success, StromError_CpuReCheck]
    · split_ifs <;>
        simp_all [hcf, hrc, gpupreagg_next_tuple_uses_fallback]

/-- Witness for C3: a `CpuReCheck` failure before any final-buffer write is
converted into CPU fallback. -/
theorem cpu_fallback_iff_recheck_before_final_witness :
    ((gpupreagg_complete_task
        ⟨⟨ReductionMode.globalReduction, 10, 10, false⟩, ⟨10⟩,
          StromError_CpuReCheck, false, false⟩
        ⟨2, false, true, 0, 0⟩).task.cpu_fallback = true ↔
      (StromError_CpuReCheck = StromError_CpuReCheck ∧ false = false)) ∧
    ((gpupreagg_complete_task
        ⟨⟨ReductionMode.globalReduction, 10, 10, false⟩, ⟨10⟩,
          StromError_CpuReCheck, false, false⟩
        ⟨2, false, true, 0, 0⟩).task.cpu_fallback = true →
      (gpupreagg_complete_task
        ⟨⟨ReductionMode.globalReduction, 10, 10, false⟩, ⟨10⟩,
          StromError_CpuReCheck, false, false⟩
        ⟨2, false, true, 0, 0⟩).task.kerror = StromError_Success) ∧
    (gpupreagg_next_tuple_uses_fallback
        (gpupreagg_complete_task
          ⟨⟨ReductionMode.globalReduction, 10, 10, false⟩, ⟨10⟩,
            StromError_CpuReCheck, false, false⟩
          ⟨2, false, true, 0, 0⟩).task =
      (gpupreagg_complete_task
        ⟨⟨ReductionMode.globalReduction, 10, 10, false⟩, ⟨10⟩,
          StromError_CpuReCheck, false, false⟩
        ⟨2, false, true, 0, 0⟩).task.cpu_fallback) ∧
    (StromError_CpuReCheck = StromError_CpuReCheck → false = true →
      (gpupreagg_complete_task
        ⟨⟨ReductionMode.globalReduction, 10, 10, false⟩, ⟨10⟩,
          StromError_CpuReCheck, false, false⟩
        ⟨2, false, true, 0, 0⟩).task.kerror = StromError_CpuReCheck ∧
      (gpupreagg_complete_task
        ⟨⟨ReductionMode.globalReduction, 10, 10, false⟩, ⟨10⟩,
          StromError_CpuReCheck, false, false⟩
        ⟨2, false, true, 0, 0⟩).retval = 0) :=
  cpu_fallback_iff_recheck_before_final _ _ (by decide) rfl

/-- Every lifecycle event preserves the invariant. -/
theorem finalBufferInv_step {s t : FinalBufferState}
    (hstep : FinalBufferStep s t) (ih : FinalBufferInv s) :
    FinalBufferInv t := by
  obtain ⟨i1, i2, i3⟩ := ih
  cases hstep with
  | attach is_last_task hat =>
    have hderef : s.is_dereferenced = false := by
      by_contra hd
      have := i3 (by simpa using hd)
      rw [this] at hat
      exact Bool.false_ne_true hat
    have hfired : s.terminator_fired = false := by
      by_contra hf
      have := (i1.mp (by simpa using hf)).2
      rw [hderef] at this
      exact Bool.false_ne_true this
    have hfreed : s.device_mem_freed = false := by
      by_contra hf
      have := i2 (by simpa using hf)
      rw [hfired] at this
      exact Bool.false_ne_true this
    refine ⟨?_, ?_, ?_⟩
    · simp only [hfired]
      constructor
      · intro hx; cases hx
      · rintro ⟨hz, _⟩; omega
    · intro hfr
      rw [hfreed] at hfr
      exact absurd hfr (by simp)
    · intro hd
      simp only [hderef, Bool.false_or] at hd
      simp [hat, hd]
  | completeNoSpaceEarly hrun =>
    exact ⟨i1, i2, i3⟩
  | completeNoSpaceFinal hrun =>
    have hfired : s.terminator_fired = false := by
      by_contra hf
      have := (i1.mp (by simpa using hf)).1
      omega
    have hfreed : s.device_mem_freed = false := by
      by_contra hf
      have := i2 (by simpa using hf)
      rw [hfired] at this
      exact Bool.false_ne_true this
    refine ⟨?_, ?_, ?_⟩
    · simp [hfired]
    · intro hfr
      rw [hfreed] at hfr
      exact absurd hfr (by simp)
    · intro _; rfl
  | completeNormal hrun =>
    have hfired : s.terminator_fired = false := by
      by_contra hf
      have := (i1.mp (by simpa using hf)).1
      omega
    have hfreed : s.device_mem_freed = false := by
      by_contra hf
      have := i2 (by simpa using hf)
      rw [hfired] at this
      exact Bool.false_ne_true this
    refine ⟨?_, ?_, ?_⟩
    · simp only [hfired, Bool.false_or]
      constructor
      · intro hx
        have hx2 := (Bool.and_eq_true _ _).mp hx
        exact ⟨by simpa using hx2.1, hx2.2⟩
      · rintro ⟨hz, hd⟩
        simp [hz, hd]
    · intro hfr
      rw [hfreed] at hfr
      exact absurd hfr (by simp)
    · exact i3
  | terminatorCompletes hfr =>
    exact ⟨i1, fun _ => hfr, i3⟩

/-- The lifecycle invariant holds in every reachable buffer state. -/
theorem finalBufferInv_of_reachable (s : FinalBufferState)
    (h : FinalBufferReachable s) : FinalBufferInv s := by
  induction h with
  | init =>
    refine ⟨?_, ?_, ?_⟩ <;> simp [initialFinalBuffer]
  | step hr hstep ih =>
    exact finalBufferInv_step hstep ih

/-- C1.  In every reachable state of one shared final-result buffer:
the buffer is freed — its terminator fired and, subsequently, its device
memory released — exactly when its running-task count has reached zero and
its dereferenced flag has been set; in particular the buffer is never freed
before being marked dereferenced. -/
theorem final_buffer_freed_iff_zero_and_dereferenced
    (s : FinalBufferState) (h : FinalBufferReachable s) :
    ((s.device_mem_freed = true ∨ s.terminator_fired = true) →
      (s.ntasks_running = 0 ∧ s.is_dereferenced = true)) ∧
    ((s.ntasks_running = 0 ∧ s.is_dereferenced = true) →
      s.terminator_fired = true) ∧
    (s.device_mem_freed = true → s.is_dereferenced = true) := by
  obtain ⟨i1, i2, i3⟩ := finalBufferInv_of_reachable s h
  refine ⟨?_, i1.mpr, ?_⟩
  · rintro (hfr | hfr)
    · exact i1.mp (i2 hfr)
    · exact i1.mp hfr
  · intro hfr
    exact (i1.mp (i2 hfr)).2

/-- Witness for C1 along a concrete event sequence: create, attach the last
task (which marks the buffer dereferenced), complete both tasks (the second
completion fires the terminator), terminator completes (device memory
freed). -/
theorem final_buffer_freed_iff_zero_and_dereferenced_witness :
    ((FinalBufferState.device_mem_freed ⟨0, true, false, true, true⟩ = true ∨
      FinalBufferState.terminator_fired ⟨0, true, false, true, true⟩ =
        true) →
      (FinalBufferState.ntasks_running ⟨0, true, false, true, true⟩ = 0 ∧
        FinalBufferState.is_dereferenced ⟨0, true, false, true, true⟩ =
          true)) ∧
    ((FinalBufferState.ntasks_running ⟨0, true, false, true, true⟩ = 0 ∧
      FinalBufferState.is_dereferenced ⟨0, true, false, true, true⟩ =
        true) →
      FinalBufferState.terminator_fired ⟨0, true, false, true, true⟩ =
        true) ∧
    (FinalBufferState.device_mem_freed ⟨0, true, false, true, true⟩ = true →
      FinalBufferState.is_dereferenced ⟨0, true, false, true, true⟩ =
        true) :=
  final_buffer_freed_iff_zero_and_dereferenced ⟨0, true, false, true, true⟩
    (by
      have h0 : FinalBufferReachable ⟨1, false, true, false, false⟩ :=
        FinalBufferReachable.init
      have h1 : FinalBufferReachable ⟨2, true, false, false, false⟩ :=
        h0.step (FinalBufferStep.attach ⟨1, false, true, false, false⟩ true
          rfl)
      have h2 : FinalBufferReachable ⟨1, true, false, false, false⟩ :=
        h1.step (FinalBufferStep.completeNormal ⟨2, true, false, false,
          false⟩ (by decide))
      have h3 : FinalBufferReachable ⟨0, true, false, true, false⟩ :=
        h2.step (FinalBufferStep.completeNormal ⟨1, true, false, false,
          false⟩ (by decide))
      exact h3.step (FinalBufferStep.terminatorCompletes ⟨0, true, false,
        true, false⟩ rfl))

/-- C4.  At creation a task's reduction mode is `NO_GROUP` exactly when
the query has zero grouping keys and `INVALID` otherwise (lines 3082-3084);
a task still `INVALID` at launch receives, under the shared-buffer lock, the
mode prescribed by the spec's blend rule: expected groups =
`plan·(1−w) + observed·w` with `w = min(completed, 30)/30`, then `LOCAL`
below `devBaselineMaxThreadsPerBlock/4`, `GLOBAL` below `nitems_real/4`,
else `FINAL`; a task that already has a mode keeps it. -/
theorem reduction_mode_selection (num_group_keys nrows_per_block : Nat)
    (pds : pgstrom_data_store_in) (is_last : Bool)
    (t : GpuPreAggTaskState)
    (hc : gpupreagg_create_task num_group_keys nrows_per_block (some pds)
      is_last = some t)
    (st : GpuPreAggSharedStats) (nitems_real mtpb : Nat) :
    ((t.kern.reduction_mode = ReductionMode.nogroup) ↔
      num_group_keys = 0) ∧
    ((t.kern.reduction_mode = ReductionMode.invalid) ↔
      ¬ num_group_keys = 0) ∧
    (gpupreagg_setup_strategy_mode st ReductionMode.invalid nitems_real
        mtpb =
      spec_mode_for_grouped st.plan_ngroups st.exec_ngroups
        (st.n_tasks_nogrp + st.n_tasks_local + st.n_tasks_global +
          st.n_tasks_final) nitems_real mtpb) ∧
    (∀ m : ReductionMode, m ≠ ReductionMode.invalid →
      gpupreagg_setup_strategy_mode st m nitems_real mtpb = m) := by
  simp only [gpupreagg_create_task, Option.some.injEq] at hc
  subst hc
  refine ⟨?_, ?_, ?_, ?_⟩
  · by_cases hk : num_group_keys = 0 <;> simp [hk]
  · by_cases hk : num_group_keys = 0 <;> simp [hk]
  · simp only [gpupreagg_setup_strategy_mode, spec_mode_for_grouped,
      gpupreagg_real_ngroups, spec_expected_groups, if_pos rfl]
    push_cast
    rfl
  · intro m hm
    simp [gpupreagg_setup_strategy_mode, hm]

/-- Witness for C4 at a grouped query (2 keys), a concrete shared-state
snapshot and concrete device limits. -/
theorem reduction_mode_selection_witness :
    (((⟨⟨ReductionMode.invalid, 5, 5, false⟩, ⟨5⟩, StromError_Success,
          false, false⟩ : GpuPreAggTaskState).kern.reduction_mode =
        ReductionMode.nogroup) ↔ (2 : Nat) = 0) ∧
    (((⟨⟨ReductionMode.invalid, 5, 5, false⟩, ⟨5⟩, StromError_Success,
          false, false⟩ : GpuPreAggTaskState).kern.reduction_mode =
        ReductionMode.invalid) ↔ ¬ (2 : Nat) = 0) ∧
    (gpupreagg_setup_strategy_mode ⟨1000, 40, 1, 2, 3, 4⟩
        ReductionMode.invalid 200 1024 =
      spec_mode_for_grouped 1000 40 (1 + 2 + 3 + 4) 200 1024) ∧
    (∀ m : ReductionMode, m ≠ ReductionMode.invalid →
      gpupreagg_setup_strategy_mode ⟨1000, 40, 1, 2, 3, 4⟩ m 200 1024 =
        m) :=
  reduction_mode_selection 2 0 ⟨⟨KDS_FORMAT_ROW, 5⟩⟩ false _ rfl
    ⟨1000, 40, 1, 2, 3, 4⟩ 200 1024

/-- C5 counterexample.  The selected mode is *not* monotone in the
growth of the observed group count: with a planner estimate of 100000
groups, a first task selected before any completion (blend = 100000, chunk
of 1000 rows, 1024 threads/block) gets `FINAL_ONLY`, while a later task
selected after 30 completed tasks with 200 observed groups (blend = 200 <
1024/4) gets `LOCAL` — the mode regresses although the observed group count
grew from 0 to 200. -/
theorem mode_selection_not_monotone_in_observed_groups :
    ¬ (∀ (st1 st2 : GpuPreAggSharedStats) (nitems_real mtpb : Nat),
        st1.plan_ngroups = st2.plan_ngroups →
        st1.exec_ngroups ≤ st2.exec_ngroups →
        st1.n_tasks_nogrp + st1.n_tasks_local + st1.n_tasks_global +
            st1.n_tasks_final ≤
          st2.n_tasks_nogrp + st2.n_tasks_local + st2.n_tasks_global +
            st2.n_tasks_final →
        modeRank (gpupreagg_setup_strategy_mode st1 ReductionMode.invalid
            nitems_real mtpb) ≤
          modeRank (gpupreagg_setup_strategy_mode st2 ReductionMode.invalid
            nitems_real mtpb)) := by
  intro hmono
  have h := hmono ⟨100000, 0, 0, 0, 0, 0⟩ ⟨100000, 200, 0, 0, 0, 30⟩
    1000 1024 rfl (by norm_num) (by norm_num)
  have e1 : gpupreagg_setup_strategy_mode ⟨100000, 0, 0, 0, 0, 0⟩
      ReductionMode.invalid 1000 1024 = ReductionMode.finalReduction := by
    norm_num [gpupreagg_setup_strategy_mode, gpupreagg_real_ngroups]
  have e2 : gpupreagg_setup_strategy_mode ⟨100000, 200, 0, 0, 0, 30⟩
      ReductionMode.invalid 1000 1024 = ReductionMode.localReduction := by
    norm_num [gpupreagg_setup_strategy_mode, gpupreagg_real_ngroups]
  rw [e1, e2] at h
  simp [modeRank] at h

/-- C5 amended.  The mode the selector assigns is monotone in the
*blended* group-count estimate (for the same chunk row count and device
limit): whenever the blend does not decrease between two selections, the
selected mode moves only forward along
`LOCAL → GLOBAL → FINAL_ONLY`.  (The original claim fails because growing
observed groups can still shrink the blend when the planner over-estimated;
see the counterexample.) -/
theorem mode_selection_monotone_in_blended_estimate
    (st1 st2 : GpuPreAggSharedStats) (nitems_real mtpb : Nat)
    (h : gpupreagg_real_ngroups st1 ≤ gpupreagg_real_ngroups st2) :
    modeRank (gpupreagg_setup_strategy_mode st1 ReductionMode.invalid
        nitems_real mtpb) ≤
      modeRank (gpupreagg_setup_strategy_mode st2 ReductionMode.invalid
        nitems_real mtpb) := by
  simp only [gpupreagg_setup_strategy_mode, if_pos rfl]
  by_cases a1 : gpupreagg_real_ngroups st1 <
      ((mtpb / 4 : Nat) : ℚ) <;>
    by_cases a2 : gpupreagg_real_ngroups st1 <
      ((nitems_real / 4 : Nat) : ℚ) <;>
    by_cases b1 : gpupreagg_real_ngroups st2 <
      ((mtpb / 4 : Nat) : ℚ) <;>
    by_cases b2 : gpupreagg_real_ngroups st2 <
      ((nitems_real / 4 : Nat) : ℚ) <;>
    simp only [a1, a2, b1, b2, if_true, if_false, modeRank] <;>
    first
      | omega
      | (exfalso; exact a1 (lt_of_le_of_lt h b1))
      | (exfalso; exact a2 (lt_of_le_of_lt h b2))

/-- Witness for the amended C5: two concrete snapshots whose blends are 200
and 100000. -/
theorem mode_selection_monotone_in_blended_estimate_witness :
    modeRank (gpupreagg_setup_strategy_mode ⟨100000, 200, 0, 0, 0, 30⟩
        ReductionMode.invalid 1000 1024) ≤
      modeRank (gpupreagg_setup_strategy_mode ⟨100000, 0, 0, 0, 0, 0⟩
        ReductionMode.invalid 1000 1024) :=
  mode_selection_monotone_in_blended_estimate _ _ 1000 1024
    (by norm_num [gpupreagg_real_ngroups])

/-- The dedup-append never produces a second copy of any `(action, expr)`
pair: it either finds the pair and leaves the list unchanged, or appends a
pair that was absent. -/
theorem tlist_dev_insert_count_le {E : Type} [DecidableEq E]
    (dev : List (Nat × E)) (action : Nat) (e : E) (p : Nat × E)
    (hp : dev.count p ≤ 1) :
    (tlist_dev_insert dev action e).count p ≤ 1 := by
  unfold tlist_dev_insert
  split_ifs with hany
  · exact hp
  · rw [List.count_append]
    by_cases hpe : p = (action, e)
    · have hnotmem : (action, e) ∉ dev := by
        intro hmem
        apply absurd hany
        simp only [not_not, List.any_eq_true]
        exact ⟨(action, e), hmem, by simp⟩
      subst hpe
      rw [List.count_eq_zero.mpr hnotmem]
      simp
    · have hz : List.count p [(action, e)] = 0 := by
        simp [List.count_singleton', hpe]
      omega

/-- The aggregate-entry inner loop preserves the per-pair bound. -/
theorem aggref_fold_count_le {E : Type} [DecidableEq E] (synth : Nat → E)
    (p : Nat × E) :
    ∀ (actions : List Nat) (dev : List (Nat × E)), dev.count p ≤ 1 →
      (actions.foldl
          (fun dev action =>
            if action = ALTFUNC_CONST_NULL then dev
            else tlist_dev_insert dev action (synth action))
          dev).count p ≤ 1
  | [], dev, hp => by simpa using hp
  | a :: rest, dev, hp => by
    simp only [List.foldl_cons]
    refine aggref_fold_count_le synth p rest _ ?_
    split_ifs with ha
    · exact hp
    · exact tlist_dev_insert_count_le _ _ _ _ hp

/-- One builder step preserves the bound for aggregate partial-state pairs
(action ≥ `ALTFUNC_EXPR_NROWS`): plain entries append only
`ALTFUNC_GROUPING_KEY`/`ALTFUNC_CONST_VALUE` tags. -/
theorem build_dev_step_count_le {E : Type} [DecidableEq E]
    (entry : TlistEntry E) (dev : List (Nat × E)) (p : Nat × E)
    (hp1 : ALTFUNC_EXPR_NROWS ≤ p.1) (hp : dev.count p ≤ 1) :
    (build_dev_step dev entry).count p ≤ 1 := by
  cases entry with
  | aggref actions synth =>
    exact aggref_fold_count_le synth p actions dev hp
  | plainEntry e is_key =>
    simp only [build_dev_step, List.count_append]
    have htag : p ≠
        ((if is_key then ALTFUNC_GROUPING_KEY else ALTFUNC_CONST_VALUE),
          e) := by
      intro hpe
      have : p.1 =
          if is_key then ALTFUNC_GROUPING_KEY else ALTFUNC_CONST_VALUE :=
        by rw [hpe]
      rcases is_key with _ | _ <;>
        simp_all [ALTFUNC_GROUPING_KEY, ALTFUNC_CONST_VALUE,
          ALTFUNC_EXPR_NROWS]
    have hz : List.count p
        [((if is_key then ALTFUNC_GROUPING_KEY else ALTFUNC_CONST_VALUE),
          e)] = 0 := by
      simp [List.count_singleton', htag]
    omega

/-- C6 counterexample.  As stated over *every* input target list the
claim is false: two identical non-aggregate entries (e.g. the same grouping
key selected twice) are appended by lines 1832-1841 without any dedup scan,
yielding two device columns with the identical
`(ALTFUNC_GROUPING_KEY, expr)` pair. -/
theorem device_tlist_dedup_fails_for_plain_entries :
    ¬ (∀ (tlist : List (TlistEntry Nat)) (p : Nat × Nat),
        (build_custom_scan_tlist_dev tlist).count p ≤ 1) := by
  intro h
  have h2 := h
    [TlistEntry.plainEntry 0 true, TlistEntry.plainEntry 0 true]
    (ALTFUNC_GROUPING_KEY, 0)
  have e : build_custom_scan_tlist_dev
      [TlistEntry.plainEntry (0 : Nat) true,
        TlistEntry.plainEntry (0 : Nat) true] =
      [(ALTFUNC_GROUPING_KEY, 0), (ALTFUNC_GROUPING_KEY, 0)] := rfl
  rw [e] at h2
  simp [List.count_cons] at h2

/-- C6 amended.  Restricted to aggregate partial-state columns (action
codes ≥ `ALTFUNC_EXPR_NROWS` — exactly what the catalog's
`altfn_argexprs` produce besides the skipped `ALTFUNC_CONST_NULL`), the
device target list built by `build_custom_scan_tlist` contains at most one
column per `(action, expression)` pair: the scan of lines 1734-1743 reuses
an existing slot whenever one matches.  Non-aggregate (grouping-key /
pass-through) entries are appended without dedup. -/
theorem device_tlist_unique_per_aggregate_pair {E : Type} [DecidableEq E]
    (tlist : List (TlistEntry E)) (p : Nat × E)
    (hp1 : ALTFUNC_EXPR_NROWS ≤ p.1) :
    (build_custom_scan_tlist_dev tlist).count p ≤ 1 := by
  suffices h : ∀ dev : List (Nat × E), dev.count p ≤ 1 →
      (tlist.foldl build_dev_step dev).count p ≤ 1 by
    simpa [build_custom_scan_tlist_dev] using h [] (by simp)
  induction tlist with
  | nil => intro dev hp; simpa using hp
  | cons t rest ih =>
    intro dev hp
    simp only [List.foldl_cons]
    exact ih _ (build_dev_step_count_le t dev p hp1 hp)

/-- Witness for the amended C6: two aggregates sharing the same row-count
partial expression produce a single device column. -/
theorem device_tlist_unique_per_aggregate_pair_witness :
    (build_custom_scan_tlist_dev
        [TlistEntry.aggref [ALTFUNC_EXPR_NROWS] (fun _ => (7 : Nat)),
          TlistEntry.aggref [ALTFUNC_EXPR_NROWS] (fun _ => (7 : Nat))]).count
      (ALTFUNC_EXPR_NROWS, 7) ≤ 1 :=
  device_tlist_unique_per_aggregate_pair _ _ (by decide)

/-- SQL three-valued `AND` is truthy exactly when both operands are. -/
theorem sqlTruthy_sqlAnd (x y : Option Int) :
    sqlTruthy (sqlAnd x y) = (sqlTruthy x && sqlTruthy y) := by
  rcases x with _ | a <;> rcases y with _ | b <;>
      simp only [sqlAnd, sqlTruthy] <;>
    (try split_ifs) <;> simp_all

/-- An `AND` list is truthy exactly when every conjunct is. -/
theorem sqlTruthy_evalAndList (cs : List SqlExpr)
    (row : Nat → Option Int) :
    sqlTruthy (evalAndList cs row) =
      cs.all fun c => sqlTruthy (evalExpr c row) := by
  induction cs with
  | nil => simp [evalAndList, sqlTruthy]
  | cons c rest ih => simp [evalAndList, sqlTruthy_sqlAnd, ih]

/-- The guarded ROW-COUNT expression evaluates to a non-null 1 when every
condition is true and to a non-null 0 otherwise. -/
theorem nrows_guarded_eval (cs : List SqlExpr) (row : Nat → Option Int) :
    evalExpr (nrows_guarded cs) row =
      some (if cs.all (fun c => sqlTruthy (evalExpr c row)) then 1 else 0) :=
  by
  match cs with
  | [] => simp [nrows_guarded, evalExpr]
  | [c] =>
    by_cases hc : sqlTruthy (evalExpr c row) <;>
      simp [nrows_guarded, make_expr_conditional, evalExpr, hc]
  | c1 :: c2 :: rest =>
    by_cases h : (c1 :: c2 :: rest).all
        (fun c => sqlTruthy (evalExpr c row)) = true <;>
      simp [nrows_guarded, make_expr_conditional, evalExpr,
        sqlTruthy_evalAndList, h]

/-- C7.  The synthesized ROW-COUNT partial-state expression evaluates,
on every row, to a non-null 1 exactly when all aggregate arguments are
non-null and the FILTER clause (when present) passes, and to a non-null 0
otherwise; in particular `COUNT(x) FILTER (WHERE p)` over the rows
`[(x=1,p=T), (x=NULL,p=T), (x=2,p=F)]` yields partials 1, 0, 0 — a
row-count of 1. -/
theorem nrows_expr_counts_fully_qualified_rows (args : List SqlExpr)
    (aggfilter : Option SqlExpr) (row : Nat → Option Int) :
    (evalExpr (make_altfunc_nrows_expr args aggfilter) row =
      some (if (args.all fun a => (evalExpr a row).isSome) &&
               (aggfilter.all fun f => sqlTruthy (evalExpr f row))
            then 1 else 0)) ∧
    evalExpr
        (make_altfunc_nrows_expr [SqlExpr.varRef 0]
          (some (SqlExpr.varRef 1)))
        (fun i => if i = 0 then some 1 else some 1) = some 1 ∧
    evalExpr
        (make_altfunc_nrows_expr [SqlExpr.varRef 0]
          (some (SqlExpr.varRef 1)))
        (fun i => if i = 0 then none else some 1) = some 0 ∧
    evalExpr
        (make_altfunc_nrows_expr [SqlExpr.varRef 0]
          (some (SqlExpr.varRef 1)))
        (fun i => if i = 0 then some 2 else some 0) = some 0 ∧
    ((some (1 : Int)).getD 0 + (some (0 : Int)).getD 0 +
        (some (0 : Int)).getD 0) = 1 := by
  refine ⟨?_, ?_, ?_, ?_, rfl⟩
  · have harg : ∀ a : SqlExpr,
        sqlTruthy (evalExpr (SqlExpr.isNotNullTest a) row) =
          (evalExpr a row).isSome := by
      intro a
      by_cases hx : (evalExpr a row).isSome <;>
        simp [evalExpr, sqlTruthy, hx]
    have hcond : (args.map SqlExpr.isNotNullTest ++
        (match aggfilter with | some f => [f] | none => [])).all
          (fun c => sqlTruthy (evalExpr c row)) =
        ((args.all fun a => (evalExpr a row).isSome) &&
          (aggfilter.all fun f => sqlTruthy (evalExpr f row))) := by
      have hfun : ((fun c => sqlTruthy (evalExpr c row)) ∘
          SqlExpr.isNotNullTest) = fun a => (evalExpr a row).isSome :=
        funext fun a => by simpa [Function.comp] using harg a
      cases aggfilter <;>
        simp [List.all_append, List.all_map, hfun, Option.all]
    rw [make_altfunc_nrows_expr.eq_def, nrows_guarded_eval, hcond]
  · simp [make_altfunc_nrows_expr, nrows_guarded, make_expr_conditional,
      evalExpr, evalAndList, sqlAnd, sqlTruthy]
  · simp [make_altfunc_nrows_expr, nrows_guarded, make_expr_conditional,
      evalExpr, evalAndList, sqlAnd, sqlTruthy]
  · simp [make_altfunc_nrows_expr, nrows_guarded, make_expr_conditional,
      evalExpr, evalAndList, sqlAnd, sqlTruthy]

end GpuPreAgg
